import Mathlib

/-!
Shallow embedding of the IEEE 738 ampacity code (src/ieee738_us.rs) over the
real numbers.  Rust f64 arithmetic is idealised as exact real arithmetic, and
f64::MAX is embedded as the corresponding real constant.  The one Rust
function that can panic (the array lookup in `day_of_year`, reached from
`solar_heat_gain` when the solar radiation is to be computed from the date)
is embedded with `Option`, `none` standing for a panic, and the `Option` is
threaded through the callers exactly along the Rust evaluation order.  The
two while-loops (bracket expansion and bisection) are embedded as
fuel-indexed iteration: the theorems below quantify over sufficient fuel and
prove that the iteration has reached the loop's exit condition there and is a
fixed point of further iteration, which is exactly termination of the Rust
loop.
-/

namespace IEEE738US

/-- The table `days_in_month` of ieee738_us.rs line 105 (non-leap year,
index 0 unused). -/
def days_in_month : List ℤ := [0, 31, 28, 31, 30, 31, 30, 31, 31, 30, 31, 30, 31]

/-- The function `day_of_year` of ieee738_us.rs lines 104-112.  The Rust
loop `for i in 1..month` indexes `days_in_month[i]`; an out-of-bounds index
(month at least 14) panics, embedded here as `none`. -/
def day_of_year (month day_of_month : ℤ) : Option ℤ :=
  (List.range' 1 (month - 1).toNat).foldlM
    (fun acc i => (days_in_month[i]?).map (fun v => acc + v)) day_of_month

/-- Modelled from the spec (claim C10): the length of each month of a
non-leap year, February always counted as 28 days. -/
def nonleap_month_length : ℕ → ℤ
  | 1 => 31
  | 2 => 28
  | 3 => 31
  | 4 => 30
  | 5 => 31
  | 6 => 30
  | 7 => 31
  | 8 => 31
  | 9 => 30
  | 10 => 31
  | 11 => 30
  | 12 => 31
  | _ => 0

noncomputable section

/-- Truncation toward zero, the rounding used by the Rust `%` operator on
f64 values. -/
def rust_trunc (x : ℝ) : ℤ := if 0 ≤ x then ⌊x⌋ else ⌈x⌉

/-- The Rust remainder operator `x % y` on f64: `x - y * trunc (x / y)`
(the result carries the sign of the dividend `x`). -/
def rust_rem (x y : ℝ) : ℝ := x - y * (rust_trunc (x / y) : ℝ)

/-- f64::MAX as a real number. -/
def f64_max : ℝ := (2 ^ 53 - 1) * 2 ^ 971

/-- Line 22 of ieee738_us.rs (the same formula appears in ieee738.rs line
166): the wind angle is reflected by `90.0 - (wind_angle_deg % 180.0 - 90.0).abs()`
before use.  Hoisted into a named definition so that the claims about it can
be stated. -/
def wind_angle_limited (wind_angle_deg : ℝ) : ℝ :=
  90 - |rust_rem wind_angle_deg 180 - 90|

/-- The function `convective_heat_loss` of ieee738_us.rs lines 11-76.
Rust `powf`/`powi` are embedded as real (rpow / monoid) powers. -/
def convective_heat_loss (ambient_temperature wind_speed wind_angle_deg
    elevation conductor_temperature diameter : ℝ) : ℝ :=
  let pi := Real.pi
  let wind_angle_deg_limited := wind_angle_limited wind_angle_deg
  let wind_angle_rad := wind_angle_deg_limited * (pi / 180)
  let tfilm := (conductor_temperature + ambient_temperature) / 2
  let uf := 0.00353 * (tfilm + 273.15) ^ (1.5 : ℝ) / (tfilm + 383.4)
  let pf := (0.080695 - 2.901e-6 * elevation + 3.7e-11 * elevation ^ 2)
      / (1 + 0.00367 * tfilm)
  let kangle := 1.194 - Real.cos wind_angle_rad
      + 0.194 * Real.cos (2 * wind_angle_rad)
      + 0.368 * Real.sin (2 * wind_angle_rad)
  let nre := diameter * pf * (wind_speed * 60 * 60) / uf
  let kf := 7.388e-3 + 2.279e-5 * tfilm - 1.343e-9 * tfilm ^ 2
  let qc0 := 1.825 * pf ^ (0.5 : ℝ) * diameter ^ (0.75 : ℝ)
      * (conductor_temperature - ambient_temperature) ^ (1.25 : ℝ)
  let qc1 := kangle * (1.01 + 1.35 * nre ^ (0.52 : ℝ)) * kf
      * (conductor_temperature - ambient_temperature)
  let qc2 := kangle * 0.754 * nre ^ (0.6 : ℝ) * kf
      * (conductor_temperature - ambient_temperature)
  max qc0 (max qc1 qc2)

/-- The function `radiated_heat_loss` of ieee738_us.rs lines 84-98. -/
def radiated_heat_loss (ambient_temperature conductor_temperature emissivity
    diameter : ℝ) : ℝ :=
  1.656 * diameter * emissivity
    * (((conductor_temperature + 273) / 100) ^ 4
       - ((ambient_temperature + 273) / 100) ^ 4)

/-- The function `solar_heat_gain` of ieee738_us.rs lines 126-212.  The
early return for a caller-supplied solar radiation is the `if` branch; the
else branch transcribes the solar-geometry computation, propagating the
possible `day_of_year` panic as `none`. -/
def solar_heat_gain (solar_radiation : ℝ) (month day_of_month : ℤ)
    (hour_of_day latitude_deg line_azimuth_deg elevation : ℝ)
    (atmosphere_clear : Bool) (absorptivity diameter : ℝ) : Option ℝ :=
  if 0 ≤ solar_radiation then some (absorptivity * solar_radiation * diameter)
  else
    (day_of_year month day_of_month).map (fun doy =>
      let pi := Real.pi
      let latitude_rad := latitude_deg * (pi / 180)
      let w_deg := (hour_of_day - 12) * 15
      let w_rad := w_deg * (pi / 180)
      let coeffs : ℝ × ℝ × ℝ × ℝ × ℝ × ℝ × ℝ :=
        if atmosphere_clear then
          (-3.9241, 5.9276, -1.7856e-1, 3.223e-3, -3.3549e-5, 1.8053e-7, -3.7868e-10)
        else
          (4.9408, 1.3208, 6.1444e-2, -2.9411e-3, 5.07752e-5, -4.03627e-7, 1.22967e-9)
      let a := coeffs.1
      let b := coeffs.2.1
      let c := coeffs.2.2.1
      let d := coeffs.2.2.2.1
      let e := coeffs.2.2.2.2.1
      let f := coeffs.2.2.2.2.2.1
      let g := coeffs.2.2.2.2.2.2
      let mult : ℝ :=
        if 15000 < elevation then 1.3
        else if 10000 < elevation then 1.25
        else if 5000 < elevation then 1.15
        else 1.0
      let p_rad := (((284 + (doy : ℝ)) / 365) * 360) * (pi / 180)
      let delta_rad := (23.4583 * Real.sin p_rad) * (pi / 180)
      let hc_rad := Real.arcsin (Real.cos latitude_rad * Real.cos delta_rad * Real.cos w_rad
          + Real.sin latitude_rad * Real.sin delta_rad)
      let hc_deg := hc_rad * (180 / pi)
      let qs := a + b * hc_deg + c * hc_deg ^ 2 + d * hc_deg ^ 3 + e * hc_deg ^ 4
          + f * hc_deg ^ 5 + g * hc_deg ^ 6
      let ksolar := 1 + 3.5e-5 * elevation - 1.0e-9 * elevation ^ 2
      let qse := max qs 0 * mult * ksolar
      let x := Real.sin w_rad
          / (Real.sin latitude_rad * Real.cos w_rad - Real.cos latitude_rad * Real.tan delta_rad)
      let cc_deg : ℝ :=
        if -180 ≤ w_deg ∧ w_deg < 0 then (if 0 ≤ x then 0 else 180)
        else (if x < 0 then 180 else 360)
      let cc_rad := cc_deg * (pi / 180)
      let zl_rad := line_azimuth_deg * (pi / 180)
      let zc_rad := cc_rad + Real.arctan x
      let theta := Real.arccos (Real.cos hc_rad * Real.cos (zc_rad - zl_rad))
      absorptivity * qse * Real.sin theta * diameter)

/-- The function `adjust_r` of ieee738_us.rs lines 221-231 (linear
resistance interpolation). -/
def adjust_r (conductor_temperature t_low t_high r_low r_high : ℝ) : ℝ :=
  (r_high - r_low) / (t_high - t_low) * (conductor_temperature - t_low) + r_low

/-- The function `thermal_rating` of ieee738_us.rs lines 254-294.  The
guard for a conductor temperature below ambient returns before the solar
computation, so the possible panic is only propagated on the other path,
exactly as in the source. -/
def thermal_rating (solar_radiation : ℝ) (month day_of_month : ℤ)
    (hour_of_day ambient_temperature wind_speed wind_angle_deg latitude_deg
    line_azimuth_deg elevation : ℝ) (atmosphere_clear : Bool)
    (conductor_temperature absorptivity emissivity diameter
    t_low t_high r_low r_high : ℝ) : Option ℝ :=
  if conductor_temperature < ambient_temperature then some 0
  else
    (solar_heat_gain solar_radiation month day_of_month hour_of_day latitude_deg
        line_azimuth_deg elevation atmosphere_clear absorptivity diameter).map
      (fun qs =>
        let qc := convective_heat_loss ambient_temperature wind_speed wind_angle_deg
            elevation conductor_temperature diameter
        let qr := radiated_heat_loss ambient_temperature conductor_temperature
            emissivity diameter
        let r := adjust_r conductor_temperature t_low t_high r_low r_high
        if qc + qr - qs < 0 then 0 else ((qc + qr - qs) / r) ^ (0.5 : ℝ))

/-- One iteration body of the loop of `conductor_temperature_rise`
(ieee738_us.rs lines 469-476): recompute the four heat-balance terms at the
current temperature and apply the explicit Euler update. -/
def euler_step (solar_radiation : ℝ) (month day_of_month : ℤ)
    (hour_of_day ambient_temperature wind_speed wind_angle_deg latitude_deg
    line_azimuth_deg elevation : ℝ) (atmosphere_clear : Bool)
    (current time_step absorptivity emissivity diameter
    t_low t_high r_low r_high heat_capacity : ℝ) (t : ℝ) : Option ℝ :=
  (solar_heat_gain solar_radiation month day_of_month hour_of_day latitude_deg
      line_azimuth_deg elevation atmosphere_clear absorptivity diameter).map
    (fun qs =>
      let qc := convective_heat_loss ambient_temperature wind_speed wind_angle_deg
          elevation t diameter
      let qr := radiated_heat_loss ambient_temperature t emissivity diameter
      let r := adjust_r t t_low t_high r_low r_high
      t + (r * current ^ (2 : ℝ) + qs - qc - qr) * time_step / heat_capacity)

/-- The `for _ in 0..steps` loop of `conductor_temperature_rise`, iterated a
natural number of times. -/
def euler_iter (solar_radiation : ℝ) (month day_of_month : ℤ)
    (hour_of_day ambient_temperature wind_speed wind_angle_deg latitude_deg
    line_azimuth_deg elevation : ℝ) (atmosphere_clear : Bool)
    (current time_step absorptivity emissivity diameter
    t_low t_high r_low r_high heat_capacity : ℝ) : ℕ → ℝ → Option ℝ
  | 0, t => some t
  | n + 1, t =>
    (euler_step solar_radiation month day_of_month hour_of_day ambient_temperature
        wind_speed wind_angle_deg latitude_deg line_azimuth_deg elevation
        atmosphere_clear current time_step absorptivity emissivity diameter
        t_low t_high r_low r_high heat_capacity t).bind
      (euler_iter solar_radiation month day_of_month hour_of_day ambient_temperature
        wind_speed wind_angle_deg latitude_deg line_azimuth_deg elevation
        atmosphere_clear current time_step absorptivity emissivity diameter
        t_low t_high r_low r_high heat_capacity n)

/-- The function `conductor_temperature_rise` of ieee738_us.rs lines
437-479: short-circuit for an initial temperature below ambient, then
`steps` explicit Euler steps, returning final minus initial temperature. -/
def conductor_temperature_rise (solar_radiation : ℝ) (month day_of_month : ℤ)
    (hour_of_day ambient_temperature wind_speed wind_angle_deg latitude_deg
    line_azimuth_deg elevation : ℝ) (atmosphere_clear : Bool)
    (conductor_temperature current time_step : ℝ) (steps : ℤ)
    (absorptivity emissivity diameter t_low t_high r_low r_high
    heat_capacity : ℝ) : Option ℝ :=
  if conductor_temperature < ambient_temperature then some 0
  else
    (euler_iter solar_radiation month day_of_month hour_of_day ambient_temperature
        wind_speed wind_angle_deg latitude_deg line_azimuth_deg elevation
        atmosphere_clear current time_step absorptivity emissivity diameter
        t_low t_high r_low r_high heat_capacity steps.toNat
        conductor_temperature).map
      (fun tf => tf - conductor_temperature)

/-- The bracket-expansion loop shared by `calculated_temperature`
(ieee738_us.rs lines 351-373) and `transient_rating` (lines 545-571):
while `f hi < target` and `hi < cap`, double `hi`.  The loop is indexed by
fuel; a `none` from `f` (a panic inside the heat-balance evaluation)
aborts, as in Rust. -/
def expandIter (f : ℝ → Option ℝ) (target cap : ℝ) : ℕ → ℝ → Option ℝ
  | 0, hi => some hi
  | n + 1, hi =>
    match f hi with
    | none => none
    | some y =>
      if y < target ∧ hi < cap then expandIter f target cap n (hi * 2)
      else some hi

/-- One step of the bisection loop (ieee738_us.rs lines 376-405 and
574-607): evaluate `f` at the midpoint and shrink the bracket to the half
that keeps the target. -/
def bisectStep (f : ℝ → Option ℝ) (target : ℝ) (p : ℝ × ℝ) : Option (ℝ × ℝ) :=
  (f ((p.1 + p.2) / 2)).map
    (fun y => if y < target then ((p.1 + p.2) / 2, p.2) else (p.1, (p.1 + p.2) / 2))

/-- The bisection loop: while `p.2 - p.1 > tolerance`, replace the bracket
by `bisectStep`.  Indexed by fuel. -/
def bisectIter (f : ℝ → Option ℝ) (target tolerance : ℝ) :
    ℕ → ℝ × ℝ → Option (ℝ × ℝ)
  | 0, p => some p
  | n + 1, p =>
    if tolerance < p.2 - p.1 then
      (bisectStep f target p).bind (bisectIter f target tolerance n)
    else some p

/-- The function `calculated_temperature` of ieee738_us.rs lines 320-409:
guard for negative current, bracket expansion of the upper bound starting
at 256 with `thermal_rating` as the monotone evaluator and target the given
current, then bisection from `(ambient_temperature, upper_bound)`, returning
the midpoint of the final bracket.  `fuel` bounds both loops. -/
def calculated_temperature (fuel : ℕ) (solar_radiation : ℝ)
    (month day_of_month : ℤ) (hour_of_day ambient_temperature wind_speed
    wind_angle_deg latitude_deg line_azimuth_deg elevation : ℝ)
    (atmosphere_clear : Bool) (current tolerance absorptivity emissivity
    diameter t_low t_high r_low r_high : ℝ) : Option ℝ :=
  if current < 0 then some 0
  else
    let f := fun t => thermal_rating solar_radiation month day_of_month hour_of_day
      ambient_temperature wind_speed wind_angle_deg latitude_deg line_azimuth_deg
      elevation atmosphere_clear t absorptivity emissivity diameter
      t_low t_high r_low r_high
    match expandIter f current (f64_max / 2) fuel 256 with
    | none => none
    | some upper_bound =>
      (bisectIter f current tolerance fuel (ambient_temperature, upper_bound)).map
        (fun p => (p.1 + p.2) / 2)

/-- The function `transient_rating` of ieee738_us.rs lines 507-611: guard
for a maximum temperature below the initial one, bracket expansion of the
upper bound starting at 4096 with `conductor_temperature_rise` as the
monotone evaluator and target the allowed temperature rise, then bisection
from `(0, upper_bound)`, returning the midpoint of the final bracket.
`fuel` bounds both loops. -/
def transient_rating (fuel : ℕ) (solar_radiation : ℝ)
    (month day_of_month : ℤ) (hour_of_day ambient_temperature wind_speed
    wind_angle_deg latitude_deg line_azimuth_deg elevation : ℝ)
    (atmosphere_clear : Bool) (conductor_temperature conductor_temperature_max
    time_step : ℝ) (steps : ℤ) (tolerance absorptivity emissivity diameter
    t_low t_high r_low r_high heat_capacity : ℝ) : Option ℝ :=
  if conductor_temperature_max < conductor_temperature then some 0
  else
    let f := fun current => conductor_temperature_rise solar_radiation month
      day_of_month hour_of_day ambient_temperature wind_speed wind_angle_deg
      latitude_deg line_azimuth_deg elevation atmosphere_clear
      conductor_temperature current time_step steps absorptivity emissivity
      diameter t_low t_high r_low r_high heat_capacity
    match expandIter f (conductor_temperature_max - conductor_temperature)
        (f64_max / 2) fuel 4096 with
    | none => none
    | some upper_bound =>
      (bisectIter f (conductor_temperature_max - conductor_temperature) tolerance
          fuel (0, upper_bound)).map (fun p => (p.1 + p.2) / 2)

/-- Modelled from the spec (claim C3): the explicit-Euler temperature
sequence, `T 0` the initial temperature and
`T (k+1) = T k + (current^2 * R (T k) + Q_solar - Q_convective (T k) - Q_radiated (T k)) * time_step / heat_capacity`,
with the resistance and both losses evaluated at the current temperature of
the step.  `qs` is the (step-independent) solar gain. -/
def spec_temperature_seq (ambient_temperature wind_speed wind_angle_deg
    elevation diameter emissivity t_low t_high r_low r_high current time_step
    heat_capacity qs t0 : ℝ) : ℕ → ℝ
  | 0 => t0
  | k + 1 =>
    let tk := spec_temperature_seq ambient_temperature wind_speed wind_angle_deg
      elevation diameter emissivity t_low t_high r_low r_high current time_step
      heat_capacity qs t0 k
    tk + (current ^ 2 * adjust_r tk t_low t_high r_low r_high + qs
        - convective_heat_loss ambient_temperature wind_speed wind_angle_deg
            elevation tk diameter
        - radiated_heat_loss ambient_temperature tk emissivity diameter)
      * time_step / heat_capacity

end

/-! ### Claim C9: solar_heat_gain short-circuits on a supplied radiation -/

/-- C9: for every solar_radiation ≥ 0, `solar_heat_gain` returns exactly
absorptivity * solar_radiation * diameter, and two calls that differ only
in month, day_of_month, hour_of_day, latitude_deg, line_azimuth_deg,
elevation or atmosphere_clear return the same value: the solar-geometry
computation is reached only when solar_radiation < 0. -/
theorem C9_solar_gain_direct (solar_radiation : ℝ) (month day_of_month : ℤ)
    (hour_of_day latitude_deg line_azimuth_deg elevation : ℝ)
    (atmosphere_clear : Bool) (absorptivity diameter : ℝ)
    (h : 0 ≤ solar_radiation) :
    solar_heat_gain solar_radiation month day_of_month hour_of_day latitude_deg
        line_azimuth_deg elevation atmosphere_clear absorptivity diameter
      = some (absorptivity * solar_radiation * diameter) ∧
    ∀ (month' day' : ℤ) (hour' lat' az' elev' : ℝ) (clear' : Bool),
      solar_heat_gain solar_radiation month' day' hour' lat' az' elev' clear'
          absorptivity diameter
        = solar_heat_gain solar_radiation month day_of_month hour_of_day
            latitude_deg line_azimuth_deg elevation atmosphere_clear
            absorptivity diameter := by
  constructor
  · rw [solar_heat_gain, if_pos h]
  · intro month' day' hour' lat' az' elev' clear'
    rw [solar_heat_gain, if_pos h, solar_heat_gain, if_pos h]

/-- Witness for C9 at a concrete input. -/
theorem C9_witness :
    (0 : ℝ) ≤ 2 ∧
      solar_heat_gain 2 7 4 9 1 1 1 false 3 5 = some (3 * 2 * 5) :=
  ⟨by norm_num, (C9_solar_gain_direct 2 7 4 9 1 1 1 false 3 5 (by norm_num)).1⟩

/-! ### Claim C6: physically invalid inputs short-circuit to zero -/

/-- C6: each physically invalid input returns exactly `some 0` before any
heat-balance evaluation: `calculated_temperature` for current < 0,
`conductor_temperature_rise` for an initial conductor temperature below
ambient, `transient_rating` for a maximum temperature below the initial
temperature.  The statements hold for every fuel since the guard precedes
the loops. -/
theorem C6_invalid_input_zero :
    (∀ (fuel : ℕ) (solar_radiation : ℝ) (month day_of_month : ℤ)
       (hour_of_day ambient_temperature wind_speed wind_angle_deg latitude_deg
        line_azimuth_deg elevation : ℝ) (atmosphere_clear : Bool)
       (current tolerance absorptivity emissivity diameter t_low t_high
        r_low r_high : ℝ), current < 0 →
       calculated_temperature fuel solar_radiation month day_of_month
         hour_of_day ambient_temperature wind_speed wind_angle_deg latitude_deg
         line_azimuth_deg elevation atmosphere_clear current tolerance
         absorptivity emissivity diameter t_low t_high r_low r_high = some 0) ∧
    (∀ (solar_radiation : ℝ) (month day_of_month : ℤ)
       (hour_of_day ambient_temperature wind_speed wind_angle_deg latitude_deg
        line_azimuth_deg elevation : ℝ) (atmosphere_clear : Bool)
       (conductor_temperature current time_step : ℝ) (steps : ℤ)
       (absorptivity emissivity diameter t_low t_high r_low r_high
        heat_capacity : ℝ), conductor_temperature < ambient_temperature →
       conductor_temperature_rise solar_radiation month day_of_month hour_of_day
         ambient_temperature wind_speed wind_angle_deg latitude_deg
         line_azimuth_deg elevation atmosphere_clear conductor_temperature
         current time_step steps absorptivity emissivity diameter t_low t_high
         r_low r_high heat_capacity = some 0) ∧
    (∀ (fuel : ℕ) (solar_radiation : ℝ) (month day_of_month : ℤ)
       (hour_of_day ambient_temperature wind_speed wind_angle_deg latitude_deg
        line_azimuth_deg elevation : ℝ) (atmosphere_clear : Bool)
       (conductor_temperature conductor_temperature_max time_step : ℝ)
       (steps : ℤ) (tolerance absorptivity emissivity diameter t_low t_high
        r_low r_high heat_capacity : ℝ),
       conductor_temperature_max < conductor_temperature →
       transient_rating fuel solar_radiation month day_of_month hour_of_day
         ambient_temperature wind_speed wind_angle_deg latitude_deg
         line_azimuth_deg elevation atmosphere_clear conductor_temperature
         conductor_temperature_max time_step steps tolerance absorptivity
         emissivity diameter t_low t_high r_low r_high heat_capacity
         = some 0) := by
  refine ⟨?_, ?_, ?_⟩
  · intro fuel sr month dom hod ta v wang lat az elev clear current tol a e d
      tl th rl rh h
    rw [calculated_temperature, if_pos h]
  · intro sr month dom hod ta v wang lat az elev clear ts current dt steps a e
      d tl th rl rh c h
    rw [conductor_temperature_rise, if_pos h]
  · intro fuel sr month dom hod ta v wang lat az elev clear ts tmax dt steps
      tol a e d tl th rl rh c h
    rw [transient_rating, if_pos h]

/-- Witness for C6, applying all three short-circuits at concrete inputs. -/
theorem C6_witness :
    ((-1 : ℝ) < 0 ∧
      calculated_temperature 5 1 6 10 11 40 2 90 30 90 0 true (-1) 1 1 1 1 25 75 1 2
        = some 0) ∧
    ((20 : ℝ) < 40 ∧
      conductor_temperature_rise 1 6 10 11 40 2 90 30 90 0 true 20 100 60 3 1 1 1 25 75 1 2 300
        = some 0) ∧
    ((50 : ℝ) < 100 ∧
      transient_rating 5 1 6 10 11 40 2 90 30 90 0 true 100 50 60 3 1 1 1 1 25 75 1 2 300
        = some 0) :=
  ⟨⟨by norm_num,
      C6_invalid_input_zero.1 5 1 6 10 11 40 2 90 30 90 0 true (-1) 1 1 1 1 25 75 1 2
        (by norm_num)⟩,
   ⟨by norm_num,
      C6_invalid_input_zero.2.1 1 6 10 11 40 2 90 30 90 0 true 20 100 60 3 1 1 1 25 75 1 2 300
        (by norm_num)⟩,
   ⟨by norm_num,
      C6_invalid_input_zero.2.2 5 1 6 10 11 40 2 90 30 90 0 true 100 50 60 3 1 1 1 1 25 75 1 2 300
        (by norm_num)⟩⟩

/-! ### Claim C5: structure of thermal_rating -/

/-- C5: `thermal_rating` returns exactly 0 when the conductor temperature is
below ambient; otherwise, once the solar gain qs is computed, it returns
exactly 0 when the net heat flux qc + qr - qs is negative, and
sqrt ((qc + qr - qs) / R) in all other cases (the f64 `powf(0.5)` is the
real square root on a nonnegative radicand). -/
theorem C5_rating_structure (solar_radiation : ℝ) (month day_of_month : ℤ)
    (hour_of_day ambient_temperature wind_speed wind_angle_deg latitude_deg
    line_azimuth_deg elevation : ℝ) (atmosphere_clear : Bool)
    (conductor_temperature absorptivity emissivity diameter
    t_low t_high r_low r_high : ℝ) :
    (conductor_temperature < ambient_temperature →
      thermal_rating solar_radiation month day_of_month hour_of_day
        ambient_temperature wind_speed wind_angle_deg latitude_deg
        line_azimuth_deg elevation atmosphere_clear conductor_temperature
        absorptivity emissivity diameter t_low t_high r_low r_high = some 0) ∧
    (ambient_temperature ≤ conductor_temperature →
      ∀ qs, solar_heat_gain solar_radiation month day_of_month hour_of_day
          latitude_deg line_azimuth_deg elevation atmosphere_clear absorptivity
          diameter = some qs →
        (convective_heat_loss ambient_temperature wind_speed wind_angle_deg
            elevation conductor_temperature diameter
          + radiated_heat_loss ambient_temperature conductor_temperature
              emissivity diameter - qs < 0 →
          thermal_rating solar_radiation month day_of_month hour_of_day
            ambient_temperature wind_speed wind_angle_deg latitude_deg
            line_azimuth_deg elevation atmosphere_clear conductor_temperature
            absorptivity emissivity diameter t_low t_high r_low r_high
            = some 0) ∧
        (0 ≤ convective_heat_loss ambient_temperature wind_speed wind_angle_deg
            elevation conductor_temperature diameter
          + radiated_heat_loss ambient_temperature conductor_temperature
              emissivity diameter - qs →
          thermal_rating solar_radiation month day_of_month hour_of_day
            ambient_temperature wind_speed wind_angle_deg latitude_deg
            line_azimuth_deg elevation atmosphere_clear conductor_temperature
            absorptivity emissivity diameter t_low t_high r_low r_high
            = some (Real.sqrt
                ((convective_heat_loss ambient_temperature wind_speed
                    wind_angle_deg elevation conductor_temperature diameter
                  + radiated_heat_loss ambient_temperature conductor_temperature
                      emissivity diameter - qs)
                  / adjust_r conductor_temperature t_low t_high r_low
                      r_high)))) := by
  constructor
  · intro h
    rw [thermal_rating, if_pos h]
  · intro hle qs hsol
    constructor
    · intro hneg
      rw [thermal_rating, if_neg (not_lt.2 hle), hsol, Option.map_some']
      simp only [if_pos hneg]
    · intro hpos
      rw [thermal_rating, if_neg (not_lt.2 hle), hsol, Option.map_some']
      simp only [if_neg (not_lt.2 hpos)]
      rw [show (0.5:ℝ) = 1/2 by norm_num, ← Real.sqrt_eq_rpow]

/-- Witness for C5 at a concrete input (temperature below ambient). -/
theorem C5_witness :
    (20 : ℝ) < 40 ∧
      thermal_rating 1 6 10 11 40 2 90 30 90 0 true 20 1 1 1 25 75 1 2 = some 0 :=
  ⟨by norm_num,
    (C5_rating_structure 1 6 10 11 40 2 90 30 90 0 true 20 1 1 1 25 75 1 2).1
      (by norm_num)⟩

/-! ### Claim C7: wind-angle normalization (corrected) -/

/-- C7 counterexample: at wind_angle_deg = -45 the effective angle
90 - |wind_angle_deg % 180 - 90| evaluates to -45, which is not in the
interval [0, 90]; Rust's `%` keeps the sign of the dividend, so negative
angles are not normalized by reflection. -/
theorem C7_counterexample :
    wind_angle_limited (-45) = -45 ∧
      wind_angle_limited (-45) ∉ Set.Icc (0:ℝ) 90 := by
  have heval : wind_angle_limited (-45) = -45 := by
    have htr : rust_trunc ((-45 : ℝ) / 180) = 0 := by
      rw [rust_trunc, if_neg (by norm_num)]
      rw [show ((-45:ℝ)/180) = -(1/4) by norm_num, Int.ceil_neg]
      have h4 : ⌊(1/4 : ℝ)⌋ = 0 := by
        rw [Int.floor_eq_zero_iff]
        constructor <;> norm_num
      rw [h4]; norm_num
    rw [wind_angle_limited, rust_rem, htr]
    rw [show ((-45:ℝ) - 180 * ((0:ℤ):ℝ) - 90) = -135 by push_cast; ring]
    rw [abs_of_neg (by norm_num : (-135:ℝ) < 0)]
    norm_num
  refine ⟨heval, ?_⟩
  rw [heval]
  intro hmem
  have := hmem.1
  norm_num at this

/-- C7 amended: for every wind_angle_deg ≥ 0 (including angles above 90°),
the effective angle 90 - |wind_angle_deg % 180 - 90| computed by
`convective_heat_loss` lies in [0, 90] before it is used in the
wind-direction factor. -/
theorem C7_amended_wind_angle_in_range (wind_angle_deg : ℝ)
    (h : 0 ≤ wind_angle_deg) :
    wind_angle_limited wind_angle_deg ∈ Set.Icc (0:ℝ) 90 := by
  have hdiv : 0 ≤ wind_angle_deg / 180 := by positivity
  have htr : rust_trunc (wind_angle_deg / 180) = ⌊wind_angle_deg / 180⌋ :=
    if_pos hdiv
  have hfr0 : 0 ≤ Int.fract (wind_angle_deg / 180) := Int.fract_nonneg _
  have hfr1 : Int.fract (wind_angle_deg / 180) < 1 := Int.fract_lt_one _
  have hrem : rust_rem wind_angle_deg 180
      = 180 * Int.fract (wind_angle_deg / 180) := by
    rw [rust_rem, htr, Int.fract]
    field_simp
  have h0 : 0 ≤ rust_rem wind_angle_deg 180 := by rw [hrem]; nlinarith
  have h1 : rust_rem wind_angle_deg 180 < 180 := by rw [hrem]; nlinarith
  have habs : |rust_rem wind_angle_deg 180 - 90| ≤ 90 := by
    rw [abs_le]; constructor <;> [linarith; linarith]
  constructor
  · rw [wind_angle_limited]; linarith
  · rw [wind_angle_limited]
    have := abs_nonneg (rust_rem wind_angle_deg 180 - 90)
    linarith

/-- Witness for the amended C7 at a concrete input. -/
theorem C7_amended_witness :
    (0:ℝ) ≤ 100 ∧ wind_angle_limited 100 ∈ Set.Icc (0:ℝ) 90 :=
  ⟨by norm_num, C7_amended_wind_angle_in_range 100 (by norm_num)⟩

/-! ### Claim C10: day_of_year -/

/-- C10: for every month in [1, 12] and every day_of_month, `day_of_year`
returns day_of_month plus the sum of the non-leap-year lengths of the
months 1..month-1 (February counted as 28); for month ≥ 14 the lookup
days_in_month[i] goes out of bounds, so the function panics (modelled as
`none`) rather than returning a value. -/
theorem C10_day_of_year (day : ℤ) :
    (∀ month : ℤ, 1 ≤ month → month ≤ 12 →
      day_of_year month day
        = some (day +
            ((List.range' 1 (month - 1).toNat).map nonleap_month_length).sum)) ∧
    (∀ month : ℤ, 14 ≤ month → day_of_year month day = none) := by
  constructor
  · intro month h1 h2
    interval_cases month <;>
      simp [day_of_year, days_in_month, nonleap_month_length, List.range'] <;>
      ring
  · intro month h14
    have hn : (month - 1).toNat = 13 + ((month - 1).toNat - 13) := by omega
    rw [day_of_year, hn, ← List.range'_append, List.foldlM_append]
    simp [days_in_month, List.range']

/-! ### Claim C3: the transient stepper is explicit Euler -/

/-- Shifting the explicit-Euler spec sequence by one step from the front. -/
theorem spec_temperature_seq_shift (ambient_temperature wind_speed
    wind_angle_deg elevation diameter emissivity t_low t_high r_low r_high
    current time_step heat_capacity qs t0 : ℝ) (n : ℕ) :
    spec_temperature_seq ambient_temperature wind_speed wind_angle_deg elevation
        diameter emissivity t_low t_high r_low r_high current time_step
        heat_capacity qs t0 (n + 1)
      = spec_temperature_seq ambient_temperature wind_speed wind_angle_deg
          elevation diameter emissivity t_low t_high r_low r_high current
          time_step heat_capacity qs
          (t0 + (current ^ 2 * adjust_r t0 t_low t_high r_low r_high + qs
              - convective_heat_loss ambient_temperature wind_speed
                  wind_angle_deg elevation t0 diameter
              - radiated_heat_loss ambient_temperature t0 emissivity diameter)
            * time_step / heat_capacity) n := by
  induction n with
  | zero => simp [spec_temperature_seq]
  | succ n ih =>
    rw [spec_temperature_seq, ih]
    conv_rhs => rw [spec_temperature_seq]

/-- Evaluation of one Euler step when the solar computation succeeds. -/
theorem euler_step_eq (solar_radiation : ℝ) (month day_of_month : ℤ)
    (hour_of_day ambient_temperature wind_speed wind_angle_deg latitude_deg
    line_azimuth_deg elevation : ℝ) (atmosphere_clear : Bool)
    (current time_step absorptivity emissivity diameter
    t_low t_high r_low r_high heat_capacity qs : ℝ)
    (hsol : solar_heat_gain solar_radiation month day_of_month hour_of_day
        latitude_deg line_azimuth_deg elevation atmosphere_clear absorptivity
        diameter = some qs) (t : ℝ) :
    euler_step solar_radiation month day_of_month hour_of_day
        ambient_temperature wind_speed wind_angle_deg latitude_deg
        line_azimuth_deg elevation atmosphere_clear current time_step
        absorptivity emissivity diameter t_low t_high r_low r_high
        heat_capacity t
      = some (t + (adjust_r t t_low t_high r_low r_high * current ^ (2:ℝ) + qs
          - convective_heat_loss ambient_temperature wind_speed wind_angle_deg
              elevation t diameter
          - radiated_heat_loss ambient_temperature t emissivity diameter)
        * time_step / heat_capacity) := by
  rw [euler_step, hsol]
  rfl

/-- The fuelled Euler loop agrees with the spec sequence once the solar
gain is fixed. -/
theorem euler_iter_eq_spec (solar_radiation : ℝ) (month day_of_month : ℤ)
    (hour_of_day ambient_temperature wind_speed wind_angle_deg latitude_deg
    line_azimuth_deg elevation : ℝ) (atmosphere_clear : Bool)
    (current time_step absorptivity emissivity diameter
    t_low t_high r_low r_high heat_capacity qs : ℝ)
    (hsol : solar_heat_gain solar_radiation month day_of_month hour_of_day
        latitude_deg line_azimuth_deg elevation atmosphere_clear absorptivity
        diameter = some qs) :
    ∀ (n : ℕ) (t : ℝ),
      euler_iter solar_radiation month day_of_month hour_of_day
          ambient_temperature wind_speed wind_angle_deg latitude_deg
          line_azimuth_deg elevation atmosphere_clear current time_step
          absorptivity emissivity diameter t_low t_high r_low r_high
          heat_capacity n t
        = some (spec_temperature_seq ambient_temperature wind_speed
            wind_angle_deg elevation diameter emissivity t_low t_high r_low
            r_high current time_step heat_capacity qs t n) := by
  intro n
  induction n with
  | zero => intro t; simp [euler_iter, spec_temperature_seq]
  | succ n ih =>
    intro t
    rw [euler_iter,
      euler_step_eq _ _ _ _ _ _ _ _ _ _ _ _ _ _ _ _ _ _ _ _ _ _ hsol,
      Option.some_bind]
    rw [ih]
    rw [spec_temperature_seq_shift]
    have harg : t + (adjust_r t t_low t_high r_low r_high * current ^ (2:ℝ)
          + qs
          - convective_heat_loss ambient_temperature wind_speed wind_angle_deg
              elevation t diameter
          - radiated_heat_loss ambient_temperature t emissivity diameter)
        * time_step / heat_capacity
        = t + (current ^ 2 * adjust_r t t_low t_high r_low r_high + qs
          - convective_heat_loss ambient_temperature wind_speed wind_angle_deg
              elevation t diameter
          - radiated_heat_loss ambient_temperature t emissivity diameter)
        * time_step / heat_capacity := by
      rw [show ((2:ℝ)) = ((2:ℕ):ℝ) by norm_num, Real.rpow_natCast]
      ring
    rw [harg]

/-- C3: for every step count steps ≥ 0 and initial temperature at or above
ambient, `conductor_temperature_rise` returns T_steps - T_0, where
T_{k+1} = T_k + (current^2 * R(T_k) + Q_solar - Q_convective(T_k) - Q_radiated(T_k)) * time_step / heat_capacity
with resistance, convective and radiated loss evaluated at the current
temperature of that step (explicit Euler, no predictor-corrector). -/
theorem C3_rise_is_explicit_euler (solar_radiation : ℝ)
    (month day_of_month : ℤ) (hour_of_day ambient_temperature wind_speed
    wind_angle_deg latitude_deg line_azimuth_deg elevation : ℝ)
    (atmosphere_clear : Bool) (conductor_temperature current time_step : ℝ)
    (steps : ℤ) (absorptivity emissivity diameter t_low t_high r_low r_high
    heat_capacity qs : ℝ)
    (hsol : solar_heat_gain solar_radiation month day_of_month hour_of_day
        latitude_deg line_azimuth_deg elevation atmosphere_clear absorptivity
        diameter = some qs)
    (hta : ambient_temperature ≤ conductor_temperature)
    (_hsteps : 0 ≤ steps) :
    conductor_temperature_rise solar_radiation month day_of_month hour_of_day
        ambient_temperature wind_speed wind_angle_deg latitude_deg
        line_azimuth_deg elevation atmosphere_clear conductor_temperature
        current time_step steps absorptivity emissivity diameter t_low t_high
        r_low r_high heat_capacity
      = some (spec_temperature_seq ambient_temperature wind_speed
          wind_angle_deg elevation diameter emissivity t_low t_high r_low
          r_high current time_step heat_capacity qs conductor_temperature
          steps.toNat - conductor_temperature) := by
  rw [conductor_temperature_rise, if_neg (not_lt.2 hta)]
  rw [euler_iter_eq_spec _ _ _ _ _ _ _ _ _ _ _ _ _ _ _ _ _ _ _ _ _ _ hsol]
  rw [Option.map_some']

/-- Witness for C3 at a concrete input. -/
theorem C3_witness :
    solar_heat_gain 0 1 1 12 0 0 0 true 1 1 = some 0 ∧
    (0:ℝ) ≤ 0 ∧ (0:ℤ) ≤ 2 ∧
    conductor_temperature_rise 0 1 1 12 0 0 0 0 0 0 true 0 1 1 2 1 1 1 1 2 1 2 1
      = some (spec_temperature_seq 0 0 0 0 1 1 1 2 1 2 1 1 1 0 0 (2:ℤ).toNat - 0) :=
  ⟨by rw [solar_heat_gain, if_pos (le_refl (0:ℝ))]; norm_num,
   le_refl 0, by norm_num,
   C3_rise_is_explicit_euler 0 1 1 12 0 0 0 0 0 0 true 0 1 1 2 1 1 1 1 2 1 2 1 0
     (by rw [solar_heat_gain, if_pos (le_refl (0:ℝ))]; norm_num)
     (le_refl 0) (by norm_num)⟩

/-! ### Claims C1, C2, C8: the bracket-expansion / bisection root finder

The two call sites (`calculated_temperature` with f = thermal_rating as a
function of conductor temperature, and `transient_rating` with
f = conductor_temperature_rise as a function of current) instantiate
`expandIter` / `bisectIter` with an evaluator that returns `some` of a pure
value whenever the solar computation succeeds; the theorems are stated for
any such evaluator, with the pure value function g made explicit by the
hypothesis `hf`. -/

/-- The bisection loop, run on a pure evaluator, always returns a bracket;
the bracket is nested in the initial one and its width is at most
max (initial width / 2 ^ fuel) tolerance. -/
theorem bisectIter_pure (g : ℝ → ℝ) (f : ℝ → Option ℝ)
    (hf : ∀ x, f x = some (g x)) (target tolerance : ℝ)
    (htol : 0 < tolerance) :
    ∀ (n : ℕ) (p : ℝ × ℝ), ∃ q : ℝ × ℝ,
      bisectIter f target tolerance n p = some q ∧
      p.1 ≤ q.1 ∧ q.2 ≤ p.2 ∧
      q.2 - q.1 ≤ max ((p.2 - p.1) / 2 ^ n) tolerance := by
  intro n
  induction n with
  | zero =>
    intro p
    refine ⟨p, rfl, le_refl _, le_refl _, ?_⟩
    rw [pow_zero, div_one]
    exact le_max_left _ _
  | succ n ih =>
    intro p
    by_cases hw : tolerance < p.2 - p.1
    · rw [bisectIter, if_pos hw, bisectStep, hf, Option.map_some', Option.some_bind]
      by_cases hm : g ((p.1 + p.2) / 2) < target
      · rw [if_pos hm]
        obtain ⟨q, hq, h1, h2, h3⟩ := ih ((p.1 + p.2) / 2, p.2)
        dsimp only at h1 h2 h3
        refine ⟨q, hq, by linarith, h2, ?_⟩
        have he : (p.2 - (p.1 + p.2) / 2) / 2 ^ n = (p.2 - p.1) / 2 ^ (n + 1) := by
          rw [pow_succ]; ring
        rw [he] at h3
        exact h3
      · rw [if_neg hm]
        obtain ⟨q, hq, h1, h2, h3⟩ := ih (p.1, (p.1 + p.2) / 2)
        dsimp only at h1 h2 h3
        refine ⟨q, hq, h1, by linarith, ?_⟩
        have he : ((p.1 + p.2) / 2 - p.1) / 2 ^ n = (p.2 - p.1) / 2 ^ (n + 1) := by
          rw [pow_succ]; ring
        rw [he] at h3
        exact h3
    · rw [bisectIter, if_neg hw]
      refine ⟨p, rfl, le_refl _, le_refl _, ?_⟩
      exact le_trans (not_lt.1 hw) (le_max_right _ _)

/-- C1: for every tolerance > 0, when the bisection phase of
`calculated_temperature` (and likewise of `transient_rating`) terminates
(fuel at least log2 of initial width over tolerance), the returned value is
the midpoint (lower + upper)/2 of the final bracket; and if the inverted
pure function g is monotone non-decreasing and continuous on the final
bracket and attains the target there, the returned value lies within
tolerance of that root. -/
theorem C1_bisection_midpoint_and_tolerance (g : ℝ → ℝ) (f : ℝ → Option ℝ)
    (hf : ∀ x, f x = some (g x)) (target tolerance lo hi : ℝ)
    (htol : 0 < tolerance) (fuel : ℕ)
    (hfuel : hi - lo ≤ tolerance * 2 ^ fuel) :
    ∃ lo2 hi2 : ℝ,
      bisectIter f target tolerance fuel (lo, hi) = some (lo2, hi2) ∧
      (bisectIter f target tolerance fuel (lo, hi)).map (fun p => (p.1 + p.2) / 2)
        = some ((lo2 + hi2) / 2) ∧
      hi2 - lo2 ≤ tolerance ∧
      ∀ r ∈ Set.Icc lo2 hi2, g r = target →
        MonotoneOn g (Set.Icc lo2 hi2) → ContinuousOn g (Set.Icc lo2 hi2) →
        |(lo2 + hi2) / 2 - r| ≤ tolerance := by
  obtain ⟨q, hq, h1, h2, h3⟩ := bisectIter_pure g f hf target tolerance htol fuel (lo, hi)
  dsimp only at h1 h2 h3
  have hwid : q.2 - q.1 ≤ tolerance := by
    refine le_trans h3 (max_le ?_ (le_refl _))
    rw [div_le_iff₀ (by positivity : (0:ℝ) < 2 ^ fuel)]
    exact hfuel
  refine ⟨q.1, q.2, by rw [hq], by rw [hq]; rfl, hwid, ?_⟩
  intro r hr hroot hmono hcont
  obtain ⟨hr1, hr2⟩ := hr
  rw [abs_le]
  constructor <;> [linarith; linarith]

/-- Witness for C1 with a concrete pure evaluator. -/
theorem C1_witness :
    (0:ℝ) < 1 ∧ (1:ℝ) - 0 ≤ 1 * 2 ^ (0:ℕ) ∧
    ∃ lo2 hi2 : ℝ,
      bisectIter (fun x => some x) 1 1 0 (0, 1) = some (lo2, hi2) ∧
      (bisectIter (fun x => some x) 1 1 0 (0, 1)).map (fun p => (p.1 + p.2) / 2)
        = some ((lo2 + hi2) / 2) ∧
      hi2 - lo2 ≤ 1 ∧
      ∀ r ∈ Set.Icc lo2 hi2, r = 1 →
        MonotoneOn (fun x => x) (Set.Icc lo2 hi2) →
        ContinuousOn (fun x => x) (Set.Icc lo2 hi2) →
        |(lo2 + hi2) / 2 - r| ≤ 1 :=
  ⟨by norm_num, by norm_num,
    C1_bisection_midpoint_and_tolerance (fun x => x) (fun x => some x)
      (fun _ => rfl) 1 1 0 1 (by norm_num) 0 (by norm_num)⟩

/-- C2: the bracket-expansion phase of `calculated_temperature` and of
`transient_rating` doubles only the upper bound, exactly while
f(upper_bound) < target and upper_bound < cap (the cap being f64::MAX / 2
at both call sites) — the lower bound is not an input of the loop at all —
and on exit either f(upper_bound) ≥ target or upper_bound ≥ cap, so growth
is bounded even when the target is unreachable. -/
theorem C2_expansion_doubles_until_exit (g : ℝ → ℝ) (f : ℝ → Option ℝ)
    (hf : ∀ x, f x = some (g x)) (target cap : ℝ) :
    ∀ (fuel : ℕ) (hi0 : ℝ), cap ≤ hi0 * 2 ^ fuel →
      ∃ k : ℕ, k ≤ fuel ∧
        expandIter f target cap fuel hi0 = some (hi0 * 2 ^ k) ∧
        (∀ j : ℕ, j < k → g (hi0 * 2 ^ j) < target ∧ hi0 * 2 ^ j < cap) ∧
        (target ≤ g (hi0 * 2 ^ k) ∨ cap ≤ hi0 * 2 ^ k) := by
  intro fuel
  induction fuel with
  | zero =>
    intro hi0 hcap
    rw [pow_zero, mul_one] at hcap
    refine ⟨0, le_refl 0, ?_, ?_, Or.inr ?_⟩
    · rw [pow_zero, mul_one]; rfl
    · intro j hj; omega
    · rw [pow_zero, mul_one]; exact hcap
  | succ fuel ih =>
    intro hi0 hcap
    rw [expandIter, hf]
    dsimp only
    by_cases hg : g hi0 < target ∧ hi0 < cap
    · rw [if_pos hg]
      have hcap2 : cap ≤ hi0 * 2 * 2 ^ fuel := by
        rw [pow_succ] at hcap
        exact le_of_le_of_eq hcap (by ring)
      obtain ⟨k, hk, heq, hguard, hexit⟩ := ih (hi0 * 2) hcap2
      refine ⟨k + 1, by omega, ?_, ?_, ?_⟩
      · rw [heq]; congr 1; ring
      · intro j hj
        cases j with
        | zero => rw [pow_zero, mul_one]; exact hg
        | succ j =>
          have h := hguard j (by omega)
          rw [show hi0 * 2 ^ (j + 1) = hi0 * 2 * 2 ^ j from by ring]
          exact h
      · rw [show hi0 * 2 ^ (k + 1) = hi0 * 2 * 2 ^ k from by ring]
        exact hexit
    · rw [if_neg hg]
      refine ⟨0, by omega, ?_, ?_, ?_⟩
      · rw [pow_zero, mul_one]
      · intro j hj; omega
      · rw [pow_zero, mul_one]
        by_cases h1 : g hi0 < target
        · exact Or.inr (not_lt.1 (fun h2 => hg ⟨h1, h2⟩))
        · exact Or.inl (not_lt.1 h1)

/-- Witness for C2 with a concrete pure evaluator. -/
theorem C2_witness :
    (1:ℝ) ≤ 1 * 2 ^ (0:ℕ) ∧
    ∃ k : ℕ, k ≤ 0 ∧
      expandIter (fun x => some x) 0 1 0 1 = some (1 * 2 ^ k) ∧
      (∀ j : ℕ, j < k → (1:ℝ) * 2 ^ j < 0 ∧ (1:ℝ) * 2 ^ j < 1) ∧
      ((0:ℝ) ≤ 1 * 2 ^ k ∨ (1:ℝ) ≤ 1 * 2 ^ k) :=
  ⟨by norm_num,
    C2_expansion_doubles_until_exit (fun x => x) (fun x => some x)
      (fun _ => rfl) 0 1 0 1 (by norm_num)⟩

/-- C8: for every tolerance > 0 and every finite bracket, the bisection
loop of `calculated_temperature` and of `transient_rating` reaches its exit
condition within n iterations whenever the initial width is at most
tolerance * 2 ^ n (n on the order of log2 (width / tolerance)), and the
resulting bracket is a fixed point of any further iteration. -/
theorem C8_bisection_terminates_log (g : ℝ → ℝ) (f : ℝ → Option ℝ)
    (hf : ∀ x, f x = some (g x)) (target tolerance lo hi : ℝ)
    (htol : 0 < tolerance) (n : ℕ)
    (hn : hi - lo ≤ tolerance * 2 ^ n) :
    ∃ q : ℝ × ℝ,
      bisectIter f target tolerance n (lo, hi) = some q ∧
      q.2 - q.1 ≤ tolerance ∧
      ∀ m : ℕ, bisectIter f target tolerance m q = some q := by
  obtain ⟨q, hq, h1, h2, h3⟩ := bisectIter_pure g f hf target tolerance htol n (lo, hi)
  dsimp only at h3
  have hwid : q.2 - q.1 ≤ tolerance := by
    refine le_trans h3 (max_le ?_ (le_refl _))
    rw [div_le_iff₀ (by positivity : (0:ℝ) < 2 ^ n)]
    exact hn
  refine ⟨q, hq, hwid, ?_⟩
  intro m
  cases m with
  | zero => rfl
  | succ m => rw [bisectIter, if_neg (not_lt.2 hwid)]

/-- Witness for C8 with a concrete pure evaluator. -/
theorem C8_witness :
    (0:ℝ) < 2 ∧ (1:ℝ) - 0 ≤ 2 * 2 ^ (0:ℕ) ∧
    ∃ q : ℝ × ℝ,
      bisectIter (fun x => some x) 3 2 0 (0, 1) = some q ∧
      q.2 - q.1 ≤ 2 ∧
      ∀ m : ℕ, bisectIter (fun x => some x) 3 2 m q = some q :=
  ⟨by norm_num, by norm_num,
    C8_bisection_terminates_log (fun x => x) (fun x => some x) (fun _ => rfl)
      3 2 0 1 (by norm_num) 0 (by norm_num)⟩

/-- Witness for C10 at a concrete month. -/
theorem C10_witness :
    ((1:ℤ) ≤ 3 ∧ (3:ℤ) ≤ 12 ∧
      day_of_year 3 5
        = some (5 + ((List.range' 1 ((3:ℤ) - 1).toNat).map nonleap_month_length).sum)) ∧
    ((14:ℤ) ≤ 15 ∧ day_of_year 15 5 = none) :=
  ⟨⟨by norm_num, by norm_num,
      (C10_day_of_year 5).1 3 (by norm_num) (by norm_num)⟩,
   ⟨by norm_num, (C10_day_of_year 5).2 15 (by norm_num)⟩⟩

/-! ### Claim C4: monotonicity (corrected)

Both monotonicity statements fail on the code because of the linear
resistance interpolation: a resistance that grows steeply with temperature
makes the net-flux-to-resistance ratio (and hence the rating) decrease, and
below t_low the interpolation can extrapolate to a negative resistance,
making the Euler temperature rise strictly decreasing in current.  The
helper lemmas evaluate the heat-balance terms at the concrete inputs of the
counterexample. -/

theorem wind_angle_limited_zero : wind_angle_limited 0 = 0 := by
  have htr : rust_trunc ((0 : ℝ) / 180) = 0 := by
    rw [rust_trunc, if_pos (by norm_num)]
    norm_num
  rw [wind_angle_limited, rust_rem, htr]
  rw [show ((0:ℝ) - 180 * ((0:ℤ):ℝ) - 90) = -90 by push_cast; ring]
  rw [abs_of_neg (by norm_num : (-90:ℝ) < 0)]
  norm_num

theorem conv_41_nonneg : 0 ≤ convective_heat_loss 40 0 0 0 41 1 := by
  rw [convective_heat_loss]
  simp only [wind_angle_limited_zero, zero_mul, mul_zero, Real.cos_zero, Real.sin_zero]
  refine le_trans ?_ (le_max_left _ _)
  positivity

theorem conv_56_nonneg : 0 ≤ convective_heat_loss 40 0 0 0 56 1 := by
  rw [convective_heat_loss]
  simp only [wind_angle_limited_zero, zero_mul, mul_zero, Real.cos_zero, Real.sin_zero]
  refine le_trans ?_ (le_max_left _ _)
  positivity

theorem conv_56_le_17 : convective_heat_loss 40 0 0 0 56 1 ≤ 17 := by
  rw [convective_heat_loss]
  simp only [wind_angle_limited_zero, zero_mul, mul_zero, Real.cos_zero, Real.sin_zero]
  norm_num
  have h16 : (16:ℝ) ^ ((5:ℝ)/4) = 32 := by
    rw [show ((16:ℝ)) = (2:ℝ) ^ ((4:ℕ):ℝ) from by rw [Real.rpow_natCast]; norm_num,
       ← Real.rpow_mul (by norm_num : (0:ℝ) ≤ 2),
       show ((4:ℕ):ℝ) * ((5:ℝ)/4) = ((5:ℕ):ℝ) from by push_cast; ring,
       Real.rpow_natCast]
    norm_num
  rw [h16]
  have hs : ((16139/235232 : ℝ)) ^ ((1:ℝ)/2) ≤ 0.285 := by
    rw [← Real.sqrt_eq_rpow]
    have h := Real.sqrt_le_sqrt (by norm_num : (16139/235232:ℝ) ≤ 0.285 ^ 2)
    rwa [Real.sqrt_sq (by norm_num : (0:ℝ) ≤ 0.285)] at h
  have hs0 : (0:ℝ) ≤ ((16139/235232 : ℝ)) ^ ((1:ℝ)/2) := by positivity
  nlinarith [hs, hs0]

theorem rad_41_ge_two : 2 ≤ radiated_heat_loss 40 41 1 1 := by
  rw [radiated_heat_loss]; norm_num

theorem rad_41_nonneg : 0 ≤ radiated_heat_loss 40 41 1 1 := by
  rw [radiated_heat_loss]; norm_num

theorem rad_56_bounds :
    0 ≤ radiated_heat_loss 40 56 1 1 ∧ radiated_heat_loss 40 56 1 1 ≤ 36 := by
  rw [radiated_heat_loss]; norm_num

theorem adjust_r_41_eq : adjust_r 41 41 42 1 1000000000 = 1 := by
  rw [adjust_r]; norm_num

theorem adjust_r_56_eq : adjust_r 56 41 42 1 1000000000 = 14999999986 := by
  rw [adjust_r]; norm_num

theorem solar_gain_zero : solar_heat_gain 0 1 1 12 0 0 0 true 1 1 = some 0 := by
  rw [solar_heat_gain, if_pos (le_refl (0:ℝ))]; norm_num

theorem thermal_rating_41_eval :
    thermal_rating 0 1 1 12 40 0 0 0 0 0 true 41 1 1 1 41 42 1 1000000000
      = some (((convective_heat_loss 40 0 0 0 41 1
          + radiated_heat_loss 40 41 1 1 - 0)
          / adjust_r 41 41 42 1 1000000000) ^ (0.5:ℝ)) := by
  have hN : ¬ (convective_heat_loss 40 0 0 0 41 1
      + radiated_heat_loss 40 41 1 1 - 0 < 0) := by
    push_neg
    have h1 := conv_41_nonneg
    have h2 := rad_41_nonneg
    linarith
  rw [thermal_rating, if_neg (by norm_num), solar_gain_zero, Option.map_some']
  dsimp only
  rw [if_neg hN]

theorem thermal_rating_56_eval :
    thermal_rating 0 1 1 12 40 0 0 0 0 0 true 56 1 1 1 41 42 1 1000000000
      = some (((convective_heat_loss 40 0 0 0 56 1
          + radiated_heat_loss 40 56 1 1 - 0)
          / adjust_r 56 41 42 1 1000000000) ^ (0.5:ℝ)) := by
  have hN : ¬ (convective_heat_loss 40 0 0 0 56 1
      + radiated_heat_loss 40 56 1 1 - 0 < 0) := by
    push_neg
    have h1 := conv_56_nonneg
    have h2 := rad_56_bounds.1
    linarith
  rw [thermal_rating, if_neg (by norm_num), solar_gain_zero, Option.map_some']
  dsimp only
  rw [if_neg hN]

/-- The steady-state rating strictly drops between conductor temperatures
41 and 56 (ambient 40) when the resistance interpolates from 1 ohm at 41 to
a billion ohms at 42. -/
theorem rating_not_monotone : ∃ a b : ℝ,
    thermal_rating 0 1 1 12 40 0 0 0 0 0 true 41 1 1 1 41 42 1 1000000000 = some a ∧
    thermal_rating 0 1 1 12 40 0 0 0 0 0 true 56 1 1 1 41 42 1 1000000000 = some b ∧
    b < a := by
  refine ⟨_, _, thermal_rating_41_eval, thermal_rating_56_eval, ?_⟩
  rw [adjust_r_41_eq, adjust_r_56_eq]
  rw [show (0.5:ℝ) = 1/2 by norm_num, ← Real.sqrt_eq_rpow, ← Real.sqrt_eq_rpow]
  have hb : Real.sqrt ((convective_heat_loss 40 0 0 0 56 1
      + radiated_heat_loss 40 56 1 1 - 0) / 14999999986) ≤ 1 := by
    refine Real.sqrt_le_one.2 ?_
    rw [div_le_one (by norm_num : (0:ℝ) < 14999999986)]
    have h1 := conv_56_le_17
    have h2 := rad_56_bounds.2
    linarith
  have ha : Real.sqrt 2 ≤ Real.sqrt ((convective_heat_loss 40 0 0 0 41 1
      + radiated_heat_loss 40 41 1 1 - 0) / 1) := by
    apply Real.sqrt_le_sqrt
    rw [div_one]
    have h1 := conv_41_nonneg
    have h2 := rad_41_ge_two
    linarith
  have h12 : (1:ℝ) < Real.sqrt 2 := by
    have h := Real.sqrt_lt_sqrt (by norm_num : (0:ℝ) ≤ 1) (by norm_num : (1:ℝ) < 2)
    simpa using h
  linarith

theorem rise_eval_slope_neg (current : ℝ) :
    conductor_temperature_rise 0 1 1 12 0 0 0 0 0 0 true 0 current 1 1 1 1 1 1 2 0 1 1
      = some (spec_temperature_seq 0 0 0 0 1 1 1 2 0 1 current 1 1 0 0 1 - 0) := by
  rw [conductor_temperature_rise, if_neg (by norm_num),
      show ((1:ℤ)).toNat = 1 from rfl,
      euler_iter_eq_spec _ _ _ _ _ _ _ _ _ _ _ _ _ _ _ _ _ _ _ _ _ _ solar_gain_zero,
      Option.map_some']

theorem rise_eval_const_resistance (current : ℝ) :
    conductor_temperature_rise 0 1 1 12 0 0 0 0 0 0 true 0 current 1 1 1 1 1 1 2 1 1 1
      = some (spec_temperature_seq 0 0 0 0 1 1 1 2 1 1 current 1 1 0 0 1 - 0) := by
  rw [conductor_temperature_rise, if_neg (by norm_num),
      show ((1:ℤ)).toNat = 1 from rfl,
      euler_iter_eq_spec _ _ _ _ _ _ _ _ _ _ _ _ _ _ _ _ _ _ _ _ _ _ solar_gain_zero,
      Option.map_some']

/-- A single Euler step strictly drops when the current grows from 0 to 1,
because the resistance interpolated from (t_low 1, r_low 0) to (t_high 2,
r_high 1) extrapolates to -1 ohm at the initial temperature 0. -/
theorem rise_not_monotone : ∃ a b : ℝ,
    conductor_temperature_rise 0 1 1 12 0 0 0 0 0 0 true 0 0 1 1 1 1 1 1 2 0 1 1
      = some a ∧
    conductor_temperature_rise 0 1 1 12 0 0 0 0 0 0 true 0 1 1 1 1 1 1 1 2 0 1 1
      = some b ∧
    b < a := by
  refine ⟨_, _, rise_eval_slope_neg 0, rise_eval_slope_neg 1, ?_⟩
  have hR : adjust_r 0 1 2 0 1 = -1 := by rw [adjust_r]; norm_num
  simp only [spec_temperature_seq, hR]
  norm_num
  linarith

/-- C4 counterexample: at concrete inputs with ambient 40, both halves of
the claim fail: thermal_rating strictly decreases from conductor
temperature 41 to 56, and conductor_temperature_rise strictly decreases
from current 0 to current 1. -/
theorem C4_counterexample :
    (∃ a b : ℝ,
      thermal_rating 0 1 1 12 40 0 0 0 0 0 true 41 1 1 1 41 42 1 1000000000
        = some a ∧
      thermal_rating 0 1 1 12 40 0 0 0 0 0 true 56 1 1 1 41 42 1 1000000000
        = some b ∧
      b < a) ∧
    (∃ a b : ℝ,
      conductor_temperature_rise 0 1 1 12 0 0 0 0 0 0 true 0 0 1 1 1 1 1 1 2 0 1 1
        = some a ∧
      conductor_temperature_rise 0 1 1 12 0 0 0 0 0 0 true 0 1 1 1 1 1 1 1 2 0 1 1
        = some b ∧
      b < a) :=
  ⟨rating_not_monotone, rise_not_monotone⟩

/-- C4 amended: (a) thermal_rating is non-decreasing between conductor
temperatures t1 ≤ t2 (both at or above ambient) whenever the interpolated
resistance is positive at both temperatures and the net-heat-flux-to-
resistance ratio is ordered accordingly (the zero clamp and the square root
preserve monotonicity); (b) conductor_temperature_rise over a single step
is non-decreasing in current on current ≥ 0 provided the adjusted
resistance at the initial temperature is non-negative, the time step is
non-negative, and the heat capacity is positive. -/
theorem C4_amended_monotonicity :
    (∀ (solar_radiation : ℝ) (month day_of_month : ℤ)
       (hour_of_day ambient_temperature wind_speed wind_angle_deg latitude_deg
        line_azimuth_deg elevation : ℝ) (atmosphere_clear : Bool)
       (absorptivity emissivity diameter t_low t_high r_low r_high qs t1 t2 : ℝ),
       solar_heat_gain solar_radiation month day_of_month hour_of_day latitude_deg
           line_azimuth_deg elevation atmosphere_clear absorptivity diameter = some qs →
       ambient_temperature ≤ t1 → t1 ≤ t2 →
       0 < adjust_r t1 t_low t_high r_low r_high →
       0 < adjust_r t2 t_low t_high r_low r_high →
       (convective_heat_loss ambient_temperature wind_speed wind_angle_deg elevation t1 diameter
          + radiated_heat_loss ambient_temperature t1 emissivity diameter - qs)
            / adjust_r t1 t_low t_high r_low r_high
         ≤ (convective_heat_loss ambient_temperature wind_speed wind_angle_deg elevation t2 diameter
            + radiated_heat_loss ambient_temperature t2 emissivity diameter - qs)
            / adjust_r t2 t_low t_high r_low r_high →
       ∀ v1 v2,
         thermal_rating solar_radiation month day_of_month hour_of_day
           ambient_temperature wind_speed wind_angle_deg latitude_deg
           line_azimuth_deg elevation atmosphere_clear t1 absorptivity emissivity
           diameter t_low t_high r_low r_high = some v1 →
         thermal_rating solar_radiation month day_of_month hour_of_day
           ambient_temperature wind_speed wind_angle_deg latitude_deg
           line_azimuth_deg elevation atmosphere_clear t2 absorptivity emissivity
           diameter t_low t_high r_low r_high = some v2 →
         v1 ≤ v2) ∧
    (∀ (solar_radiation : ℝ) (month day_of_month : ℤ)
       (hour_of_day ambient_temperature wind_speed wind_angle_deg latitude_deg
        line_azimuth_deg elevation : ℝ) (atmosphere_clear : Bool)
       (conductor_temperature time_step : ℝ)
       (absorptivity emissivity diameter t_low t_high r_low r_high heat_capacity
        qs current1 current2 : ℝ),
       solar_heat_gain solar_radiation month day_of_month hour_of_day latitude_deg
           line_azimuth_deg elevation atmosphere_clear absorptivity diameter = some qs →
       ambient_temperature ≤ conductor_temperature →
       0 ≤ current1 → current1 ≤ current2 →
       0 ≤ adjust_r conductor_temperature t_low t_high r_low r_high →
       0 ≤ time_step → 0 < heat_capacity →
       ∀ v1 v2,
         conductor_temperature_rise solar_radiation month day_of_month hour_of_day
           ambient_temperature wind_speed wind_angle_deg latitude_deg
           line_azimuth_deg elevation atmosphere_clear conductor_temperature
           current1 time_step 1 absorptivity emissivity diameter t_low t_high
           r_low r_high heat_capacity = some v1 →
         conductor_temperature_rise solar_radiation month day_of_month hour_of_day
           ambient_temperature wind_speed wind_angle_deg latitude_deg
           line_azimuth_deg elevation atmosphere_clear conductor_temperature
           current2 time_step 1 absorptivity emissivity diameter t_low t_high
           r_low r_high heat_capacity = some v2 →
         v1 ≤ v2) := by
  constructor
  · intro solar_radiation month day_of_month hour_of_day ambient_temperature
      wind_speed wind_angle_deg latitude_deg line_azimuth_deg elevation
      atmosphere_clear absorptivity emissivity diameter t_low t_high r_low
      r_high qs t1 t2 hsol h1a h12 hR1 hR2 hratio v1 v2 hv1 hv2
    rw [thermal_rating, if_neg (not_lt.2 h1a), hsol, Option.map_some'] at hv1
    rw [thermal_rating, if_neg (not_lt.2 (le_trans h1a h12)), hsol,
      Option.map_some'] at hv2
    dsimp only at hv1 hv2
    have e1 := Option.some.inj hv1
    have e2 := Option.some.inj hv2
    subst e1
    subst e2
    by_cases hN1 : convective_heat_loss ambient_temperature wind_speed
        wind_angle_deg elevation t1 diameter
        + radiated_heat_loss ambient_temperature t1 emissivity diameter - qs < 0
    · rw [if_pos hN1]
      split_ifs with hN2
      · exact le_refl 0
      · exact Real.rpow_nonneg (div_nonneg (not_lt.1 hN2) hR2.le) _
    · have hN2 : ¬ (convective_heat_loss ambient_temperature wind_speed
          wind_angle_deg elevation t2 diameter
          + radiated_heat_loss ambient_temperature t2 emissivity diameter - qs < 0) := by
        intro hN2
        have hlt : (convective_heat_loss ambient_temperature wind_speed
            wind_angle_deg elevation t2 diameter
            + radiated_heat_loss ambient_temperature t2 emissivity diameter - qs)
              / adjust_r t2 t_low t_high r_low r_high < 0 :=
          div_neg_of_neg_of_pos hN2 hR2
        have hge : 0 ≤ (convective_heat_loss ambient_temperature wind_speed
            wind_angle_deg elevation t1 diameter
            + radiated_heat_loss ambient_temperature t1 emissivity diameter - qs)
              / adjust_r t1 t_low t_high r_low r_high :=
          div_nonneg (not_lt.1 hN1) hR1.le
        linarith
      rw [if_neg hN1, if_neg hN2]
      rw [show (0.5:ℝ) = 1/2 by norm_num, ← Real.sqrt_eq_rpow, ← Real.sqrt_eq_rpow]
      exact Real.sqrt_le_sqrt hratio
  · intro solar_radiation month day_of_month hour_of_day ambient_temperature
      wind_speed wind_angle_deg latitude_deg line_azimuth_deg elevation
      atmosphere_clear conductor_temperature time_step absorptivity emissivity
      diameter t_low t_high r_low r_high heat_capacity qs current1 current2
      hsol hta h0c h12 hR hdt hc v1 v2 hv1 hv2
    rw [conductor_temperature_rise, if_neg (not_lt.2 hta),
      show ((1:ℤ)).toNat = 1 from rfl,
      euler_iter_eq_spec _ _ _ _ _ _ _ _ _ _ _ _ _ _ _ _ _ _ _ _ _ _ hsol,
      Option.map_some'] at hv1
    rw [conductor_temperature_rise, if_neg (not_lt.2 hta),
      show ((1:ℤ)).toNat = 1 from rfl,
      euler_iter_eq_spec _ _ _ _ _ _ _ _ _ _ _ _ _ _ _ _ _ _ _ _ _ _ hsol,
      Option.map_some'] at hv2
    have e1 := Option.some.inj hv1
    have e2 := Option.some.inj hv2
    subst e1
    subst e2
    simp only [spec_temperature_seq]
    have hsq : current1 ^ 2 ≤ current2 ^ 2 := by nlinarith
    have hmul : current1 ^ 2 * adjust_r conductor_temperature t_low t_high r_low r_high
        ≤ current2 ^ 2 * adjust_r conductor_temperature t_low t_high r_low r_high :=
      mul_le_mul_of_nonneg_right hsq hR
    have key : (current1 ^ 2 * adjust_r conductor_temperature t_low t_high r_low r_high
          + qs
          - convective_heat_loss ambient_temperature wind_speed wind_angle_deg
              elevation conductor_temperature diameter
          - radiated_heat_loss ambient_temperature conductor_temperature
              emissivity diameter) * time_step / heat_capacity
        ≤ (current2 ^ 2 * adjust_r conductor_temperature t_low t_high r_low r_high
          + qs
          - convective_heat_loss ambient_temperature wind_speed wind_angle_deg
              elevation conductor_temperature diameter
          - radiated_heat_loss ambient_temperature conductor_temperature
              emissivity diameter) * time_step / heat_capacity := by
      exact div_le_div_of_nonneg_right
        (mul_le_mul_of_nonneg_right (by linarith) hdt) hc.le
    linarith

/-- Witness for the amended C4 at concrete inputs (degenerate pairs, all
hypotheses discharged concretely). -/
theorem C4_amended_witness :
    ((40:ℝ) ≤ 41 ∧
      ((convective_heat_loss 40 0 0 0 41 1 + radiated_heat_loss 40 41 1 1 - 0)
          / adjust_r 41 41 42 1 1000000000) ^ (0.5:ℝ)
        ≤ ((convective_heat_loss 40 0 0 0 41 1 + radiated_heat_loss 40 41 1 1 - 0)
          / adjust_r 41 41 42 1 1000000000) ^ (0.5:ℝ)) ∧
    ((0:ℝ) ≤ 0 ∧
      spec_temperature_seq 0 0 0 0 1 1 1 2 1 1 0 1 1 0 0 1 - 0
        ≤ spec_temperature_seq 0 0 0 0 1 1 1 2 1 1 0 1 1 0 0 1 - 0) :=
  ⟨⟨by norm_num,
      C4_amended_monotonicity.1 0 1 1 12 40 0 0 0 0 0 true 1 1 1 41 42 1
        1000000000 0 41 41 solar_gain_zero (by norm_num) (le_refl _)
        (by rw [adjust_r_41_eq]; norm_num) (by rw [adjust_r_41_eq]; norm_num)
        (le_refl _) _ _ thermal_rating_41_eval thermal_rating_41_eval⟩,
   ⟨le_refl 0,
      C4_amended_monotonicity.2 0 1 1 12 0 0 0 0 0 0 true 0 1 1 1 1 1 2 1 1 1
        0 0 0 solar_gain_zero (le_refl _) (le_refl _) (le_refl _)
        (by rw [adjust_r]; norm_num) (by norm_num) (by norm_num)
        _ _ (rise_eval_const_resistance 0) (rise_eval_const_resistance 0)⟩⟩

end IEEE738US
